import Mathlib

/-!
# Verification of the torscraper fetch client

Shallow embedding of `torscraper/scraper.py` (class `Scraper`): a
rate-limited, identity-rotating fetch client with a pluggable response
cache, a per-identity usage ledger, and a throttle anchored to the last
recorded fetch time.

Modelling conventions:
* The Python `dict` `self.ips_used` is an association list
  `List (String × Nat)` with Python dict semantics: assignment to an
  existing key overwrites its value in place, assignment to a new key
  appends it; lookups find the (unique) matching entry.
* The cacher's backing store is an association list
  `List (String × Response)`; `check_response_exists` is a key-membership
  test and `cache_response` an overwriting store, matching `FileCacher`.
* Wall-clock reads (`time.time()`), the random draw (`random.random()`),
  the identity handed back by the Tor control channel, and the HTTP
  response are inputs supplied by an `Env` record, one field per
  external interaction of a single `scrape` call.
* Exceptions are modelled with `Except`/explicit error fields; because a
  Python exception leaves the partially mutated object in place, error
  results carry the state at the point of the raise.
* Logging, session headers and the randomized user-agent choice have no
  effect on the verified state and are elided.
-/

/-- An HTTP response as used by the scraper: only `status_code` and the
payload are consulted (`requests.Response`). -/
structure Response where
  status_code : Nat
  text : String
deriving DecidableEq, Repr

/-- The errors that can escape a `scrape` call: cacher existence-check
failure, Tor identity-renewal failure (`stem` controller), hard transport
error from `tor_session.get`, cacher write failure, and the (unreachable
in the scrape flow) Python `KeyError` from `_update_ip_dict`. -/
inductive ScrapeErr where
  | storageUnavailable
  | identityRenewal
  | transport
  | storageWrite
  | keyError
deriving DecidableEq, Repr

/-- External inputs consumed by one `scrape` call. -/
structure Env where
  /-- `cacher.check_response_exists` raises (backend unreachable). -/
  existsErr : Bool
  /-- `_refresh_ip` raises (controller authentication / NEWNYM failure). -/
  renewErr : Bool
  /-- `tor_session.get(url)` raises a hard transport error. -/
  fetchErr : Bool
  /-- `cacher.cache_response` raises on write. -/
  storeErr : Bool
  /-- the identity delivered by `_get_current_ip` after a rotation -/
  newIp : String
  /-- the response delivered by `tor_session.get(url)` -/
  response : Response
  /-- the `random.random()` draw used for the wait computation -/
  rand : ℚ
  /-- `time.time()` at the wait computation (line 232) -/
  timeAtWait : ℚ
  /-- `time.time()` inside `set_last_scrape_time` after the fetch -/
  timeAfterFetch : ℚ
deriving DecidableEq, Repr

/-- The mutable state of a `Scraper` instance (configuration fields plus
the fields mutated by `scrape`), together with the cacher's backing
store. -/
structure ScraperState where
  max_n_uses : Nat
  minimum_wait_time : ℚ
  random_wait_time : ℚ
  ignore_cache : Bool
  current_ip : String
  ips_used : List (String × Nat)
  bad_response_urls : List String
  last_scrape_time : ℚ
  cache : List (String × Response)
deriving DecidableEq, Repr

/-- Python dict read: value of the first (unique) entry with the given
key. -/
def lookupKey {β : Type} : List (String × β) → String → Option β
  | [], _ => none
  | (k, v) :: rest, key => if k = key then some v else lookupKey rest key

/-- Python dict assignment `d[key] = v`: overwrite the entry in place if
the key is present, append it otherwise. -/
def setKey {β : Type} : List (String × β) → String → β → List (String × β)
  | [], key, v => [(key, v)]
  | (k, w) :: rest, key, v =>
    if k = key then (k, v) :: rest else (k, w) :: setKey rest key v

/-- Python `d[key] += n`: increment in place if the key is present,
`none` models the `KeyError` raised otherwise. -/
def incKey : List (String × Nat) → String → Nat → Option (List (String × Nat))
  | [], _, _ => none
  | (k, w) :: rest, key, n =>
    if k = key then some ((k, w + n) :: rest)
    else (incKey rest key n).map (fun l => (k, w) :: l)

/-- Python `set.add`: insert the element unless already present. -/
def addUrl (l : List String) (u : String) : List String :=
  if u ∈ l then l else l ++ [u]

/-- `Scraper.get_file_name`, character level: Python
`url.replace("/", "__")` with a one-character pattern replaces every
`'/'` by two underscores. -/
def replaceSlash : List Char → List Char
  | [] => []
  | c :: rest =>
    if c = '/' then '_' :: '_' :: replaceSlash rest else c :: replaceSlash rest

/-- `Scraper.get_file_name`: `url.replace("/", "__")`. -/
def get_file_name (url : String) : String :=
  String.mk (replaceSlash url.data)

/-- `FileCacher.check_response_exists`: does the backing store hold an
entry under `name`? -/
def check_response_exists (cache : List (String × Response)) (name : String) : Bool :=
  (lookupKey cache name).isSome

/-- `Scraper.n_uses` (property): the current identity's ledger entry;
on `KeyError` a zero entry is inserted and 0 returned, so the read can
mutate the state. -/
def n_uses (s : ScraperState) : Nat × ScraperState :=
  match lookupKey s.ips_used s.current_ip with
  | some n => (n, s)
  | none => (0, { s with ips_used := setKey s.ips_used s.current_ip 0 })

/-- `Scraper._update_current_ip` given the identity `newIp` resolved by
`_get_current_ip`: make it current and set its ledger entry to 0. -/
def update_current_ip (newIp : String) (s : ScraperState) : ScraperState :=
  { s with current_ip := newIp, ips_used := setKey s.ips_used newIp 0 }

/-- `Scraper._refresh_ip`: authenticate and signal NEWNYM (may fail,
before any state mutation), then `_update_current_ip`. -/
def refresh_ip (env : Env) (s : ScraperState) : Except ScrapeErr ScraperState :=
  if env.renewErr then .error .identityRenewal
  else .ok (update_current_ip env.newIp s)

/-- `Scraper._update_ip_dict`: `self.ips_used[self.current_ip] += n_uses`;
`none` is the `KeyError` on a missing key. -/
def update_ip_dict (n : Nat) (s : ScraperState) : Option ScraperState :=
  (incKey s.ips_used s.current_ip n).map (fun d => { s with ips_used := d })

/-- `Scraper.set_last_scrape_time` at clock reading `t`. -/
def set_last_scrape_time (t : ℚ) (s : ScraperState) : ScraperState :=
  { s with last_scrape_time := t }

/-- The rotation check opening `Scraper._get_page_from_internet`
(lines 223–229): read `n_uses` (which may insert a zero entry) and, if it
has reached `max_n_uses`, `_refresh_ip`. Errors carry the state at the
raise. -/
def rotation_phase (env : Env) (s0 : ScraperState) :
    Except (ScrapeErr × ScraperState) ScraperState :=
  let p := n_uses s0
  if p.2.max_n_uses ≤ p.1 then
    match refresh_ip env p.2 with
    | .error e => .error (e, p.2)
    | .ok s2 => .ok s2
  else .ok p.2

/-- The wait-fetch-bookkeeping tail of `Scraper._get_page_from_internet`
(lines 232–251): compute the throttle wait anchored to
`last_scrape_time`, sleep, fetch (a hard transport error raises after
the sleep), then `set_last_scrape_time` and `_update_ip_dict(1)`.
Returns the response, the new state and the slept duration; errors carry
the state at the raise together with the duration already slept. -/
def fetch_phase (env : Env) (s : ScraperState) :
    Except (ScrapeErr × ScraperState × Option ℚ) (Response × ScraperState × ℚ) :=
  let time_since_last_request := env.timeAtWait - s.last_scrape_time
  let wait_time :=
    max (s.minimum_wait_time + env.rand * s.random_wait_time - time_since_last_request) 0
  if env.fetchErr then .error (.transport, s, some wait_time)
  else
    let s2 := set_last_scrape_time env.timeAfterFetch s
    match update_ip_dict 1 s2 with
    | none => .error (.keyError, s2, some wait_time)
    | some s3 => .ok (env.response, s3, wait_time)

/-- `Scraper._get_page_from_internet`: rotation check, then throttled
fetch. -/
def get_page_from_internet (env : Env) (s0 : ScraperState) :
    Except (ScrapeErr × ScraperState × Option ℚ) (Response × ScraperState × ℚ) :=
  match rotation_phase env s0 with
  | .error es => .error (es.1, es.2, none)
  | .ok s1 => fetch_phase env s1

/-- Observable outcome of one `scrape` call: final state, number of
completed network fetches, duration slept (if the throttle ran), the
escaping error (if any), and the bad-response set printed by the
`except` clause before re-raising. -/
structure ScrapeResult where
  state : ScraperState
  fetches : Nat
  sleep : Option ℚ
  err : Option ScrapeErr
  reported : Option (List String)
deriving DecidableEq, Repr

/-- The cache-miss tail of `Scraper.scrape` (lines 199–213): fetch,
classify by `status_code // 100 == 2`, store on success or record the
URL in `bad_response_urls` on failure; on any escaping error the
bad-response set is printed and the error re-raised. -/
def scrape_fetch (env : Env) (url fname : String) (s0 : ScraperState) : ScrapeResult :=
  match get_page_from_internet env s0 with
  | .error (e, s, w) =>
    { state := s, fetches := 0, sleep := w, err := some e,
      reported := some s.bad_response_urls }
  | .ok (response, s1, w) =>
    if response.status_code / 100 = 2 then
      if env.storeErr then
        { state := s1, fetches := 1, sleep := some w, err := some .storageWrite,
          reported := some s1.bad_response_urls }
      else
        { state := { s1 with cache := setKey s1.cache fname response },
          fetches := 1, sleep := some w, err := none, reported := none }
    else
      { state := { s1 with bad_response_urls := addUrl s1.bad_response_urls url },
        fetches := 1, sleep := some w, err := none, reported := none }

/-- `Scraper.scrape` (lines 169–213): derive the cache key, decide
hit/miss (the check is skipped when `ignore_cache` is set), and on a
miss run the fetch tail. A failing existence check is printed-and-raised
by the `except` clause. -/
def scrape (env : Env) (url : String) (s0 : ScraperState) : ScrapeResult :=
  let fname := get_file_name url
  if s0.ignore_cache then
    scrape_fetch env url fname s0
  else if env.existsErr then
    { state := s0, fetches := 0, sleep := none, err := some .storageUnavailable,
      reported := some s0.bad_response_urls }
  else if check_response_exists s0.cache fname then
    { state := s0, fetches := 0, sleep := none, err := none, reported := none }
  else
    scrape_fetch env url fname s0

/-- The tail of `Scraper.__init__` (lines 83–87): empty ledger, first
identity assigned via `_update_current_ip`, empty bad-response set, and
`set_last_scrape_time` recording the construction clock `t0`. -/
def scraper_init (maxUses : Nat) (minWait randWait : ℚ) (ignoreCache : Bool)
    (cache : List (String × Response)) (initIp : String) (t0 : ℚ) : ScraperState :=
  { max_n_uses := maxUses
    minimum_wait_time := minWait
    random_wait_time := randWait
    ignore_cache := ignoreCache
    current_ip := initIp
    ips_used := setKey [] initIp 0
    bad_response_urls := []
    last_scrape_time := t0
    cache := cache }

/-- Does a character list contain the two-character substitute `"__"`?
(The spec's notion of "already containing the substitute", used to state
the claimed injectivity domain.) -/
def contains_substitute : List Char → Bool
  | c1 :: c2 :: rest => (c1 = '_' && c2 = '_') || contains_substitute (c2 :: rest)
  | _ => false

/-! ## Sample data for concrete witnesses -/

def sampleResponse : Response := { status_code := 200, text := "ok" }

def sampleEnv : Env :=
  { existsErr := false, renewErr := false, fetchErr := false, storeErr := false,
    newIp := "10.0.0.2", response := sampleResponse, rand := 1/2,
    timeAtWait := 100, timeAfterFetch := 106 }

def sampleState : ScraperState :=
  { max_n_uses := 5, minimum_wait_time := 5, random_wait_time := 5,
    ignore_cache := false, current_ip := "10.0.0.1",
    ips_used := [("10.0.0.1", 2)], bad_response_urls := [],
    last_scrape_time := 90,
    cache := [("http:____a.com__p", { status_code := 200, text := "cached" })] }

/-- A client state whose current identity has reached the usage
threshold. -/
def thresholdState : ScraperState :=
  { sampleState with ips_used := [("10.0.0.1", 5)] }

/-- An environment whose fetch delivers a 404. -/
def notFoundEnv : Env :=
  { sampleEnv with response := { status_code := 404, text := "not found" } }

/-- An environment whose cache existence check fails. -/
def storageErrEnv : Env :=
  { sampleEnv with existsErr := true }

/-- An environment whose network fetch raises a hard transport error. -/
def transportErrEnv : Env :=
  { sampleEnv with fetchErr := true }

/-- A ledger holding a retired identity "A" (count 3) besides the
current identity "B" (count 5, at the threshold). -/
def retiredResetState : ScraperState :=
  { sampleState with current_ip := "B", ips_used := [("A", 3), ("B", 5)] }

/-- An environment whose rotation hands back the previously retired
identity "A" (Tor can return an exit node that was already used). -/
def reuseIpEnv : Env :=
  { sampleEnv with newIp := "A" }

/-! ## Association-list lemmas (Python dict semantics) -/

theorem lookupKey_setKey_self {β : Type} (d : List (String × β)) (k : String) (v : β) :
    lookupKey (setKey d k v) k = some v := by
  induction d with
  | nil => simp [setKey, lookupKey]
  | cons p rest ih =>
    obtain ⟨k', w⟩ := p
    by_cases h : k' = k <;> simp [setKey, lookupKey, h, ih]

theorem lookupKey_setKey_ne {β : Type} (d : List (String × β)) (k k' : String) (v : β)
    (h : k' ≠ k) : lookupKey (setKey d k v) k' = lookupKey d k' := by
  induction d with
  | nil => simp [setKey, lookupKey, Ne.symm h]
  | cons p rest ih =>
    obtain ⟨ka, w⟩ := p
    by_cases hk : ka = k
    · subst hk
      simp [setKey, lookupKey, Ne.symm h]
    · by_cases hk' : ka = k' <;> simp [setKey, lookupKey, hk, hk', ih, h]

theorem incKey_isSome (d : List (String × Nat)) (k : String) (n : Nat) :
    (incKey d k n).isSome = (lookupKey d k).isSome := by
  induction d with
  | nil => simp [incKey, lookupKey]
  | cons p rest ih =>
    obtain ⟨ka, w⟩ := p
    by_cases hk : ka = k <;> simp [incKey, lookupKey, hk, ih]

theorem lookupKey_incKey_self (d l : List (String × Nat)) (k : String) (n v : Nat)
    (hd : incKey d k n = some l) (hv : lookupKey d k = some v) :
    lookupKey l k = some (v + n) := by
  induction d generalizing l with
  | nil => simp [incKey] at hd
  | cons p rest ih =>
    obtain ⟨ka, w⟩ := p
    by_cases hk : ka = k
    · subst hk
      simp [incKey, lookupKey] at hd hv
      subst hv
      simp [← hd, lookupKey]
    · simp [incKey, lookupKey, hk] at hd hv
      obtain ⟨l', hl', rfl⟩ := hd
      simp [lookupKey, hk, ih l' hl' hv]

theorem lookupKey_incKey_ne (d l : List (String × Nat)) (k k' : String) (n : Nat)
    (hd : incKey d k n = some l) (h : k' ≠ k) :
    lookupKey l k' = lookupKey d k' := by
  induction d generalizing l with
  | nil => simp [incKey] at hd
  | cons p rest ih =>
    obtain ⟨ka, w⟩ := p
    by_cases hk : ka = k
    · subst hk
      simp [incKey] at hd
      simp [← hd, lookupKey, Ne.symm h]
    · simp [incKey, hk] at hd
      obtain ⟨l', hl', rfl⟩ := hd
      by_cases hk' : ka = k' <;> simp [lookupKey, hk', ih l' hl']

/-! ## Flow lemmas -/

theorem n_uses_of_lookup (s : ScraperState) (n : Nat)
    (h : lookupKey s.ips_used s.current_ip = some n) : n_uses s = (n, s) := by
  simp [n_uses, h]

theorem n_uses_lookup (s : ScraperState) :
    lookupKey (n_uses s).2.ips_used (n_uses s).2.current_ip = some (n_uses s).1 := by
  unfold n_uses
  cases h : lookupKey s.ips_used s.current_ip with
  | some n => simpa using h
  | none => simpa using lookupKey_setKey_self s.ips_used s.current_ip 0

theorem rotation_phase_of_lt (env : Env) (s : ScraperState) (n : Nat)
    (h : lookupKey s.ips_used s.current_ip = some n) (hlt : n < s.max_n_uses) :
    rotation_phase env s = .ok s := by
  simp [rotation_phase, n_uses_of_lookup s n h, Nat.not_le_of_lt hlt]

theorem rotation_phase_of_rotate (env : Env) (s : ScraperState) (n : Nat)
    (h : lookupKey s.ips_used s.current_ip = some n) (hge : s.max_n_uses ≤ n)
    (hre : env.renewErr = false) :
    rotation_phase env s = .ok (update_current_ip env.newIp s) := by
  simp [rotation_phase, n_uses_of_lookup s n h, hge, refresh_ip, hre]

theorem rotation_phase_of_renew_err (env : Env) (s : ScraperState) (n : Nat)
    (h : lookupKey s.ips_used s.current_ip = some n) (hge : s.max_n_uses ≤ n)
    (hre : env.renewErr = true) :
    rotation_phase env s = .error (.identityRenewal, s) := by
  simp [rotation_phase, n_uses_of_lookup s n h, hge, refresh_ip, hre]

/-- `n_uses` inserts a fresh zero entry on a missing key. -/
theorem n_uses_of_lookup_none (s : ScraperState)
    (h : lookupKey s.ips_used s.current_ip = none) :
    n_uses s = (0, { s with ips_used := setKey s.ips_used s.current_ip 0 }) := by
  simp [n_uses, h]

/-- After a successful rotation check the current identity always has a
ledger entry, so `_update_ip_dict` cannot raise in the scrape flow. -/
theorem rotation_phase_ok_lookup (env : Env) (s s1 : ScraperState)
    (h : rotation_phase env s = .ok s1) :
    ∃ m, lookupKey s1.ips_used s1.current_ip = some m := by
  cases hl : lookupKey s.ips_used s.current_ip with
  | some n =>
    by_cases hc : s.max_n_uses ≤ n
    · cases hre : env.renewErr with
      | false =>
        rw [rotation_phase_of_rotate env s n hl hc hre] at h
        simp only [Except.ok.injEq] at h
        subst h
        exact ⟨0, lookupKey_setKey_self _ _ _⟩
      | true =>
        rw [rotation_phase_of_renew_err env s n hl hc hre] at h
        simp at h
    · rw [rotation_phase_of_lt env s n hl (Nat.not_le.mp hc)] at h
      simp only [Except.ok.injEq] at h
      subst h
      exact ⟨n, hl⟩
  | none =>
    have hn := n_uses_of_lookup_none s hl
    by_cases hc : s.max_n_uses ≤ 0 <;>
      cases hre : env.renewErr <;>
      simp [rotation_phase, hn, hc, refresh_ip, hre] at h
    · rw [← h]
      exact ⟨0, lookupKey_setKey_self _ _ _⟩
    · rw [← h]
      exact ⟨0, lookupKey_setKey_self _ _ _⟩
    · rw [← h]
      exact ⟨0, lookupKey_setKey_self _ _ _⟩

/-- The rotation check only touches `current_ip` and `ips_used`. -/
theorem rotation_phase_frame (env : Env) (s s1 : ScraperState)
    (h : rotation_phase env s = .ok s1) :
    s1.max_n_uses = s.max_n_uses ∧ s1.minimum_wait_time = s.minimum_wait_time ∧
    s1.random_wait_time = s.random_wait_time ∧ s1.ignore_cache = s.ignore_cache ∧
    s1.last_scrape_time = s.last_scrape_time ∧ s1.cache = s.cache ∧
    s1.bad_response_urls = s.bad_response_urls := by
  cases hl : lookupKey s.ips_used s.current_ip with
  | some n =>
    by_cases hc : s.max_n_uses ≤ n
    · cases hre : env.renewErr with
      | false =>
        rw [rotation_phase_of_rotate env s n hl hc hre] at h
        simp only [Except.ok.injEq] at h
        subst h
        simp [update_current_ip]
      | true =>
        rw [rotation_phase_of_renew_err env s n hl hc hre] at h
        simp at h
    · rw [rotation_phase_of_lt env s n hl (Nat.not_le.mp hc)] at h
      simp only [Except.ok.injEq] at h
      subst h
      simp
  | none =>
    have hn := n_uses_of_lookup_none s hl
    by_cases hc : s.max_n_uses ≤ 0 <;>
      cases hre : env.renewErr <;>
      simp [rotation_phase, hn, hc, refresh_ip, hre] at h <;>
      rw [← h] <;>
      simp [update_current_ip]

theorem fetch_phase_of_fetch_err (env : Env) (s : ScraperState)
    (hf : env.fetchErr = true) :
    fetch_phase env s = .error (.transport, s,
      some (max (s.minimum_wait_time + env.rand * s.random_wait_time
        - (env.timeAtWait - s.last_scrape_time)) 0)) := by
  simp [fetch_phase, hf]

theorem fetch_phase_ok (env : Env) (s : ScraperState) (n : Nat)
    (hf : env.fetchErr = false)
    (h : lookupKey s.ips_used s.current_ip = some n) :
    ∃ d, incKey s.ips_used s.current_ip 1 = some d ∧
      fetch_phase env s = .ok (env.response,
        { s with last_scrape_time := env.timeAfterFetch, ips_used := d },
        max (s.minimum_wait_time + env.rand * s.random_wait_time
          - (env.timeAtWait - s.last_scrape_time)) 0) := by
  have hs : (incKey s.ips_used s.current_ip 1).isSome := by
    rw [incKey_isSome, h]
    rfl
  obtain ⟨d, hd⟩ := Option.isSome_iff_exists.mp hs
  refine ⟨d, hd, ?_⟩
  simp [fetch_phase, hf, set_last_scrape_time, update_ip_dict, hd]

/-- A cache miss (with the existence check succeeding and the cache not
ignored) runs the fetch tail. -/
theorem scrape_of_miss (env : Env) (url : String) (s : ScraperState)
    (hic : s.ignore_cache = false) (hex : env.existsErr = false)
    (hmiss : check_response_exists s.cache (get_file_name url) = false) :
    scrape env url s = scrape_fetch env url (get_file_name url) s := by
  simp [scrape, hic, hex, hmiss]

theorem rotation_phase_ok_of_no_renew_err (env : Env) (s : ScraperState)
    (hre : env.renewErr = false) : ∃ s1, rotation_phase env s = .ok s1 := by
  cases hl : lookupKey s.ips_used s.current_ip with
  | some n =>
    by_cases hc : s.max_n_uses ≤ n
    · exact ⟨_, rotation_phase_of_rotate env s n hl hc hre⟩
    · exact ⟨_, rotation_phase_of_lt env s n hl (Nat.not_le.mp hc)⟩
  | none =>
    have hn := n_uses_of_lookup_none s hl
    by_cases hc : s.max_n_uses ≤ 0
    · exact ⟨update_current_ip env.newIp
          { s with ips_used := setKey s.ips_used s.current_ip 0 },
        by simp [rotation_phase, hn, hc, refresh_ip, hre]⟩
    · exact ⟨{ s with ips_used := setKey s.ips_used s.current_ip 0 },
        by simp [rotation_phase, hn, hc]⟩

theorem get_page_of_rotation_ok {env : Env} {s s1 : ScraperState}
    (h : rotation_phase env s = .ok s1) :
    get_page_from_internet env s = fetch_phase env s1 := by
  simp [get_page_from_internet, h]

theorem get_page_of_rotation_err {env : Env} {s st : ScraperState} {e : ScrapeErr}
    (h : rotation_phase env s = .error (e, st)) :
    get_page_from_internet env s = .error (e, st, none) := by
  simp [get_page_from_internet, h]

theorem scrape_fetch_of_error {env : Env} {url fname : String} {s st : ScraperState}
    {e : ScrapeErr} {w : Option ℚ}
    (h : get_page_from_internet env s = .error (e, st, w)) :
    scrape_fetch env url fname s =
      { state := st, fetches := 0, sleep := w, err := some e,
        reported := some st.bad_response_urls } := by
  simp [scrape_fetch, h]

theorem scrape_fetch_of_ok_success {env : Env} {url fname : String} {s st : ScraperState}
    {r : Response} {w : ℚ}
    (h : get_page_from_internet env s = .ok (r, st, w))
    (hsc : r.status_code / 100 = 2) (hse : env.storeErr = false) :
    scrape_fetch env url fname s =
      { state := { st with cache := setKey st.cache fname r },
        fetches := 1, sleep := some w, err := none, reported := none } := by
  simp [scrape_fetch, h, hsc, hse]

theorem scrape_fetch_of_ok_store_err {env : Env} {url fname : String} {s st : ScraperState}
    {r : Response} {w : ℚ}
    (h : get_page_from_internet env s = .ok (r, st, w))
    (hsc : r.status_code / 100 = 2) (hse : env.storeErr = true) :
    scrape_fetch env url fname s =
      { state := st, fetches := 1, sleep := some w, err := some .storageWrite,
        reported := some st.bad_response_urls } := by
  simp [scrape_fetch, h, hsc, hse]

theorem scrape_fetch_of_ok_bad {env : Env} {url fname : String} {s st : ScraperState}
    {r : Response} {w : ℚ}
    (h : get_page_from_internet env s = .ok (r, st, w))
    (hsc : ¬ r.status_code / 100 = 2) :
    scrape_fetch env url fname s =
      { state := { st with bad_response_urls := addUrl st.bad_response_urls url },
        fetches := 1, sleep := some w, err := none, reported := none } := by
  simp [scrape_fetch, h, hsc]

/-- On a cache miss with the rotation step succeeding, the slept duration
is the throttle formula evaluated at the pre-call state: target spacing
`minimum_wait + r·span` minus the time already elapsed since
`last_scrape_time`, floored at 0. Holds whether or not the fetch itself
errors afterwards (Python sleeps before issuing the request). -/
theorem scrape_sleep_eq (env : Env) (url : String) (s : ScraperState)
    (hic : s.ignore_cache = false) (hex : env.existsErr = false)
    (hmiss : check_response_exists s.cache (get_file_name url) = false)
    (hre : env.renewErr = false) :
    (scrape env url s).sleep =
      some (max (s.minimum_wait_time + env.rand * s.random_wait_time
        - (env.timeAtWait - s.last_scrape_time)) 0) := by
  rw [scrape_of_miss env url s hic hex hmiss]
  obtain ⟨s1, hs1⟩ := rotation_phase_ok_of_no_renew_err env s hre
  obtain ⟨hmax, hmin, hrand, hig, hlast, hcache, hbad⟩ := rotation_phase_frame env s s1 hs1
  have hgp := get_page_of_rotation_ok hs1
  cases hfe : env.fetchErr with
  | true =>
    rw [scrape_fetch_of_error (by rw [hgp, fetch_phase_of_fetch_err env s1 hfe])]
    simp [hmin, hrand, hlast]
  | false =>
    obtain ⟨m, hm⟩ := rotation_phase_ok_lookup env s s1 hs1
    obtain ⟨d, hd, hfp⟩ := fetch_phase_ok env s1 m hfe hm
    have hgp2 := hgp.trans hfp
    by_cases hsc : env.response.status_code / 100 = 2
    · cases hse : env.storeErr with
      | true =>
        rw [scrape_fetch_of_ok_store_err hgp2 hsc hse]
        simp [hmin, hrand, hlast]
      | false =>
        rw [scrape_fetch_of_ok_success hgp2 hsc hse]
        simp [hmin, hrand, hlast]
    · rw [scrape_fetch_of_ok_bad hgp2 hsc]
      simp [hmin, hrand, hlast]

/-! ## C1: cache hit is a pure no-op -/

/-- **C1.** For every URL whose derived cache key already exists in the
cache, with the client not configured to ignore the cache (and the
existence check itself not failing), `scrape` terminates successfully
with zero network fetches, leaving the usage ledger, the current
identity, the last-fetch timestamp — the entire state — unchanged. -/
theorem scrape_cache_hit_frame (env : Env) (url : String) (s : ScraperState)
    (h1 : s.ignore_cache = false) (h2 : env.existsErr = false)
    (h3 : check_response_exists s.cache (get_file_name url) = true) :
    scrape env url s =
      { state := s, fetches := 0, sleep := none, err := none, reported := none } := by
  simp [scrape, h1, h2, h3]

/-- Witness for C1 at a concrete cached URL. -/
theorem scrape_cache_hit_frame_witness :
    scrape sampleEnv "http://a.com/p" sampleState =
      { state := sampleState, fetches := 0, sleep := none, err := none,
        reported := none } :=
  scrape_cache_hit_frame sampleEnv "http://a.com/p" sampleState rfl rfl (by decide)

/-! ## C4: throttle wait formula -/

/-- **C4.** For every cache-miss fetch (rotation succeeding), the
throttle wait equals
`max (minimum_wait + r·random_wait_span − elapsed_since_last_recorded_fetch) 0`
with `r = random.random() ∈ [0,1)`: positive remainder means sleeping
exactly that long, zero-or-negative means proceeding immediately, and
the elapsed time is anchored to the previously recorded fetch time
`last_scrape_time`, so work done before the call shortens the wait. -/
theorem scrape_wait_formula (env : Env) (url : String) (s : ScraperState)
    (hic : s.ignore_cache = false) (hex : env.existsErr = false)
    (hmiss : check_response_exists s.cache (get_file_name url) = false)
    (hre : env.renewErr = false)
    (_hr0 : 0 ≤ env.rand) (_hr1 : env.rand < 1) :
    (scrape env url s).sleep =
      some (max (s.minimum_wait_time + env.rand * s.random_wait_time
        - (env.timeAtWait - s.last_scrape_time)) 0) :=
  scrape_sleep_eq env url s hic hex hmiss hre

/-- Witness for C4: concrete miss where 10 seconds already elapsed since
the last fetch, swallowing the whole 7.5-second target spacing. -/
theorem scrape_wait_formula_witness :
    (scrape sampleEnv "http://b.com/q" sampleState).sleep =
      some (max (sampleState.minimum_wait_time
        + sampleEnv.rand * sampleState.random_wait_time
        - (sampleEnv.timeAtWait - sampleState.last_scrape_time)) 0) :=
  scrape_wait_formula sampleEnv "http://b.com/q" sampleState rfl rfl (by decide)
    rfl (by norm_num [sampleEnv]) (by norm_num [sampleEnv])

/-! ## C10: first fetch throttled relative to construction time -/

/-- **C10.** `__init__` records the construction clock `t0` as
`last_scrape_time` although no fetch has completed, so the first
cache-miss fetch of a fresh client waits
`max (minimum_wait + r·span − (now − t0)) 0`: throttled relative to the
moment of construction and reduced by the time already elapsed since,
rather than unthrottled or given a fixed initial wait. -/
theorem first_fetch_wait_anchored_at_construction
    (maxUses : Nat) (minWait randWait : ℚ) (cache : List (String × Response))
    (initIp : String) (t0 : ℚ) (env : Env) (url : String)
    (hex : env.existsErr = false)
    (hmiss : check_response_exists cache (get_file_name url) = false)
    (hre : env.renewErr = false) :
    (scraper_init maxUses minWait randWait false cache initIp t0).last_scrape_time = t0 ∧
    (scrape env url (scraper_init maxUses minWait randWait false cache initIp t0)).sleep =
      some (max (minWait + env.rand * randWait - (env.timeAtWait - t0)) 0) := by
  refine ⟨rfl, ?_⟩
  exact scrape_sleep_eq env url (scraper_init maxUses minWait randWait false cache initIp t0)
    rfl hex hmiss hre

/-- Witness for C10: a client constructed at time 90 whose first scrape
happens with the wait computation at time 100. -/
theorem first_fetch_wait_anchored_at_construction_witness :
    (scraper_init 5 5 5 false [] "10.0.0.1" 90).last_scrape_time = 90 ∧
    (scrape sampleEnv "http://b.com/q" (scraper_init 5 5 5 false [] "10.0.0.1" 90)).sleep =
      some (max (5 + sampleEnv.rand * 5 - (sampleEnv.timeAtWait - 90)) 0) :=
  first_fetch_wait_anchored_at_construction 5 5 5 [] "10.0.0.1" 90 sampleEnv
    "http://b.com/q" rfl (by decide) rfl

/-! ## C8: cache-key derivation -/

/-- `replaceSlash` is injective on character lists containing no
underscore at all: every `'_'` `'_'` pair in the output decodes back to
a `'/'`. -/
theorem replaceSlash_inj : ∀ l1 l2 : List Char, '_' ∉ l1 → '_' ∉ l2 →
    replaceSlash l1 = replaceSlash l2 → l1 = l2 := by
  intro l1
  induction l1 with
  | nil =>
    intro l2 _ _ heq
    cases l2 with
    | nil => rfl
    | cons b t2 =>
      exfalso
      by_cases hb : b = '/' <;> simp [replaceSlash, hb] at heq
  | cons a t1 ih =>
    intro l2 h1 h2 heq
    cases l2 with
    | nil =>
      exfalso
      by_cases ha : a = '/' <;> simp [replaceSlash, ha] at heq
    | cons b t2 =>
      have ha' : ¬ a = '_' := fun hh => h1 (by simp [hh])
      have hb' : ¬ b = '_' := fun hh => h2 (by simp [hh])
      have h1t : '_' ∉ t1 := fun hh => h1 (List.mem_cons_of_mem _ hh)
      have h2t : '_' ∉ t2 := fun hh => h2 (List.mem_cons_of_mem _ hh)
      by_cases ha : a = '/' <;> by_cases hb : b = '/'
      · subst ha
        subst hb
        simp only [replaceSlash, if_true, List.cons.injEq, true_and] at heq
        rw [ih t2 h1t h2t heq]
      · subst ha
        simp [replaceSlash, hb] at heq
        exact absurd heq.1.symm hb'
      · subst hb
        simp [replaceSlash, ha] at heq
        exact absurd heq.1 ha'
      · simp [replaceSlash, ha, hb] at heq
        rw [heq.1, ih t2 h1t h2t heq.2]

/-- **C8 counterexample.** The claim's own example pair
`"http://a.com/x/y"` and `"http://a.com/x__y"` are distinct URLs that
map to the *same* key; moreover `"a_/b"` and `"a/_b"`, two distinct
URLs neither of which contains the substitute `"__"`, also collide, so
the derivation is not injective even on substitute-free URLs. -/
theorem get_file_name_collision :
    (("http://a.com/x/y" : String) ≠ "http://a.com/x__y" ∧
      get_file_name "http://a.com/x/y" = get_file_name "http://a.com/x__y") ∧
    (("a_/b" : String) ≠ "a/_b" ∧
      contains_substitute ("a_/b" : String).data = false ∧
      contains_substitute ("a/_b" : String).data = false ∧
      get_file_name "a_/b" = get_file_name "a/_b") := by
  constructor
  · exact ⟨by decide, by decide⟩
  · exact ⟨by decide, by decide, by decide, by decide⟩

/-- **C8 (amended).** The cache-key derivation is a deterministic
function of the URL (each `'/'` replaced by `"__"`), injective on the
set of URLs that contain no underscore character at all; on URLs that
already contain an underscore — even a single one, not only the full
substitute `"__"` — distinct URLs can collide. -/
theorem get_file_name_injective_no_underscore (u1 u2 : String)
    (h1 : '_' ∉ u1.data) (h2 : '_' ∉ u2.data)
    (heq : get_file_name u1 = get_file_name u2) : u1 = u2 := by
  obtain ⟨d1⟩ := u1
  obtain ⟨d2⟩ := u2
  have hdata : replaceSlash d1 = replaceSlash d2 := congrArg String.data heq
  exact congrArg String.mk (replaceSlash_inj d1 d2 h1 h2 hdata)

/-- Witness for the amended C8 on a concrete underscore-free URL. -/
theorem get_file_name_injective_no_underscore_witness :
    ("http://a.com/x/y" : String) = "http://a.com/x/y" :=
  get_file_name_injective_no_underscore "http://a.com/x/y" "http://a.com/x/y"
    (by decide) (by decide) rfl

/-! ## C2: rotation on threshold -/

/-- **C2.** On a cache miss with the current identity's usage count at
or above `max_n_uses` immediately before the fetch, the identity is
rotated first and the fetch happens under the new identity: it is
current afterwards and its ledger entry, created at 0 by the rotation,
reads exactly 1 after the single recorded use. (That no rotation check
runs after a cache hit is the C1 frame property.) -/
theorem scrape_rotates_on_threshold (env : Env) (url : String) (s : ScraperState)
    (n : Nat)
    (hic : s.ignore_cache = false) (hex : env.existsErr = false)
    (hmiss : check_response_exists s.cache (get_file_name url) = false)
    (hn : lookupKey s.ips_used s.current_ip = some n) (hth : s.max_n_uses ≤ n)
    (hre : env.renewErr = false) (hfe : env.fetchErr = false) :
    (scrape env url s).state.current_ip = env.newIp ∧
    lookupKey (scrape env url s).state.ips_used env.newIp = some 1 ∧
    (scrape env url s).fetches = 1 := by
  rw [scrape_of_miss env url s hic hex hmiss]
  have hs1 := rotation_phase_of_rotate env s n hn hth hre
  have hgp := get_page_of_rotation_ok hs1
  have hm : lookupKey (update_current_ip env.newIp s).ips_used
      (update_current_ip env.newIp s).current_ip = some 0 := by
    simp [update_current_ip, lookupKey_setKey_self]
  obtain ⟨d, hd, hfp⟩ := fetch_phase_ok env (update_current_ip env.newIp s) 0 hfe hm
  have hgp2 := hgp.trans hfp
  have hld : lookupKey d env.newIp = some 1 := by
    have h01 := lookupKey_incKey_self (update_current_ip env.newIp s).ips_used d
      (update_current_ip env.newIp s).current_ip 1 0 hd hm
    simpa [update_current_ip] using h01
  by_cases hsc : env.response.status_code / 100 = 2
  · cases hse : env.storeErr with
    | true =>
      rw [scrape_fetch_of_ok_store_err hgp2 hsc hse]
      exact ⟨rfl, hld, rfl⟩
    | false =>
      rw [scrape_fetch_of_ok_success hgp2 hsc hse]
      exact ⟨rfl, hld, rfl⟩
  · rw [scrape_fetch_of_ok_bad hgp2 hsc]
    exact ⟨rfl, hld, rfl⟩

/-- Witness for C2: the identity "10.0.0.1" has 5 of 5 uses, so the
fetch rotates to "10.0.0.2" whose count ends at 1. -/
theorem scrape_rotates_on_threshold_witness :
    (scrape sampleEnv "http://b.com/q" thresholdState).state.current_ip = sampleEnv.newIp ∧
    lookupKey (scrape sampleEnv "http://b.com/q" thresholdState).state.ips_used
      sampleEnv.newIp = some 1 ∧
    (scrape sampleEnv "http://b.com/q" thresholdState).fetches = 1 :=
  scrape_rotates_on_threshold sampleEnv "http://b.com/q" thresholdState 5 rfl rfl
    (by decide) (by decide) (by decide) rfl rfl

/-! ## C5: classification and cache store -/

theorem lookup_none_of_not_exists {c : List (String × Response)} {k : String}
    (h : check_response_exists c k = false) : lookupKey c k = none := by
  unfold check_response_exists at h
  cases hl : lookupKey c k with
  | none => rfl
  | some r =>
    rw [hl] at h
    simp at h

theorem mem_addUrl (l : List String) (u : String) : u ∈ addUrl l u := by
  by_cases h : u ∈ l <;> simp [addUrl, h]

/-- **C5.** For every completed cache-miss fetch, the response is
classified successful exactly when its status code lies in 200–299 (the
code's `status_code // 100 == 2` test), and exactly the successful
responses are persisted under the URL's derived key: a 2xx response is
stored there, while any other status leaves the cache untouched. -/
theorem scrape_classifies_and_stores (env : Env) (url : String) (s : ScraperState)
    (hic : s.ignore_cache = false) (hex : env.existsErr = false)
    (hmiss : check_response_exists s.cache (get_file_name url) = false)
    (hre : env.renewErr = false) (hfe : env.fetchErr = false)
    (hse : env.storeErr = false) :
    (lookupKey (scrape env url s).state.cache (get_file_name url) = some env.response
      ↔ (200 ≤ env.response.status_code ∧ env.response.status_code ≤ 299)) ∧
    ((env.response.status_code < 200 ∨ 300 ≤ env.response.status_code) →
      (scrape env url s).state.cache = s.cache) := by
  have hdiv : (env.response.status_code / 100 = 2) ↔
      (200 ≤ env.response.status_code ∧ env.response.status_code ≤ 299) := by
    omega
  rw [scrape_of_miss env url s hic hex hmiss]
  obtain ⟨s1, hs1⟩ := rotation_phase_ok_of_no_renew_err env s hre
  obtain ⟨hmax, hmin, hrand, hig, hlast, hcache, hbad⟩ := rotation_phase_frame env s s1 hs1
  have hgp := get_page_of_rotation_ok hs1
  obtain ⟨m, hm⟩ := rotation_phase_ok_lookup env s s1 hs1
  obtain ⟨d, hd, hfp⟩ := fetch_phase_ok env s1 m hfe hm
  have hgp2 := hgp.trans hfp
  by_cases hsc : env.response.status_code / 100 = 2
  · rw [scrape_fetch_of_ok_success hgp2 hsc hse]
    refine ⟨iff_of_true (lookupKey_setKey_self _ _ _) (hdiv.mp hsc), ?_⟩
    intro hbr
    obtain ⟨h200, h299⟩ := hdiv.mp hsc
    rcases hbr with h | h <;> omega
  · rw [scrape_fetch_of_ok_bad hgp2 hsc]
    have hnone : lookupKey s1.cache (get_file_name url) = none := by
      rw [hcache]
      exact lookup_none_of_not_exists hmiss
    refine ⟨iff_of_false (by simp [hnone]) (fun hp => hsc (hdiv.mpr hp)), fun _ => hcache⟩

/-- Witness for C5: a 200 response on an uncached URL ends up stored
under the derived key. -/
theorem scrape_classifies_and_stores_witness :
    (lookupKey (scrape sampleEnv "http://b.com/q" sampleState).state.cache
        (get_file_name "http://b.com/q") = some sampleEnv.response
      ↔ (200 ≤ sampleEnv.response.status_code ∧
          sampleEnv.response.status_code ≤ 299)) ∧
    ((sampleEnv.response.status_code < 200 ∨ 300 ≤ sampleEnv.response.status_code) →
      (scrape sampleEnv "http://b.com/q" sampleState).state.cache = sampleState.cache) :=
  scrape_classifies_and_stores sampleEnv "http://b.com/q" sampleState rfl rfl
    (by decide) rfl rfl rfl

/-! ## C6: non-2xx terminates normally, is recorded, never cached -/

/-- A cache miss with rotation and fetch succeeding always performs
exactly one network fetch, whatever the status or store outcome. -/
theorem scrape_fetches_eq_one (env : Env) (url : String) (s : ScraperState)
    (hic : s.ignore_cache = false) (hex : env.existsErr = false)
    (hmiss : check_response_exists s.cache (get_file_name url) = false)
    (hre : env.renewErr = false) (hfe : env.fetchErr = false) :
    (scrape env url s).fetches = 1 := by
  rw [scrape_of_miss env url s hic hex hmiss]
  obtain ⟨s1, hs1⟩ := rotation_phase_ok_of_no_renew_err env s hre
  have hgp := get_page_of_rotation_ok hs1
  obtain ⟨m, hm⟩ := rotation_phase_ok_lookup env s s1 hs1
  obtain ⟨d, hd, hfp⟩ := fetch_phase_ok env s1 m hfe hm
  have hgp2 := hgp.trans hfp
  by_cases hsc : env.response.status_code / 100 = 2
  · cases hse : env.storeErr with
    | true => rw [scrape_fetch_of_ok_store_err hgp2 hsc hse]
    | false => rw [scrape_fetch_of_ok_success hgp2 hsc hse]
  · rw [scrape_fetch_of_ok_bad hgp2 hsc]

/-- **C6.** A scrape whose fetch completes with a non-2xx status (e.g.
404) terminates normally (no escaping error), records the URL in the
bad-response set, writes nothing under the URL's derived key, and a
subsequent scrape of the same URL misses the cache again and performs
another network fetch. -/
theorem scrape_bad_status_not_cached (env env2 : Env) (url : String) (s : ScraperState)
    (hic : s.ignore_cache = false) (hex : env.existsErr = false)
    (hmiss : check_response_exists s.cache (get_file_name url) = false)
    (hre : env.renewErr = false) (hfe : env.fetchErr = false)
    (hbad : ¬ env.response.status_code / 100 = 2)
    (hex2 : env2.existsErr = false) (hre2 : env2.renewErr = false)
    (hfe2 : env2.fetchErr = false) :
    (scrape env url s).err = none ∧
    url ∈ (scrape env url s).state.bad_response_urls ∧
    lookupKey (scrape env url s).state.cache (get_file_name url) = none ∧
    (scrape env2 url (scrape env url s).state).fetches = 1 := by
  rw [scrape_of_miss env url s hic hex hmiss]
  obtain ⟨s1, hs1⟩ := rotation_phase_ok_of_no_renew_err env s hre
  obtain ⟨hmax, hmin, hrand, hig, hlast, hcache, hbad1⟩ := rotation_phase_frame env s s1 hs1
  have hgp := get_page_of_rotation_ok hs1
  obtain ⟨m, hm⟩ := rotation_phase_ok_lookup env s s1 hs1
  obtain ⟨d, hd, hfp⟩ := fetch_phase_ok env s1 m hfe hm
  have hgp2 := hgp.trans hfp
  rw [scrape_fetch_of_ok_bad hgp2 hbad]
  have hnone : lookupKey s1.cache (get_file_name url) = none := by
    rw [hcache]
    exact lookup_none_of_not_exists hmiss
  refine ⟨rfl, mem_addUrl _ _, hnone, ?_⟩
  apply scrape_fetches_eq_one env2 url _ ?_ hex2 ?_ hre2 hfe2
  · simpa [hig] using hic
  · simp [check_response_exists, hnone]

/-- Witness for C6: a 404 on an uncached URL; the follow-up scrape under
`sampleEnv` fetches again. -/
theorem scrape_bad_status_not_cached_witness :
    (scrape notFoundEnv "http://b.com/q" sampleState).err = none ∧
    "http://b.com/q" ∈ (scrape notFoundEnv "http://b.com/q" sampleState).state.bad_response_urls ∧
    lookupKey (scrape notFoundEnv "http://b.com/q" sampleState).state.cache
      (get_file_name "http://b.com/q") = none ∧
    (scrape sampleEnv "http://b.com/q"
      (scrape notFoundEnv "http://b.com/q" sampleState).state).fetches = 1 :=
  scrape_bad_status_not_cached notFoundEnv sampleEnv "http://b.com/q" sampleState
    rfl rfl (by decide) rfl rfl (by decide) rfl rfl rfl

/-! ## C9: error propagation reports the bad-response set -/

theorem rotation_phase_err_frame (env : Env) (s st : ScraperState) (e : ScrapeErr)
    (h : rotation_phase env s = .error (e, st)) :
    e = .identityRenewal ∧ st.bad_response_urls = s.bad_response_urls := by
  cases hl : lookupKey s.ips_used s.current_ip with
  | some n =>
    by_cases hc : s.max_n_uses ≤ n
    · cases hre : env.renewErr with
      | true =>
        rw [rotation_phase_of_renew_err env s n hl hc hre] at h
        simp only [Except.error.injEq, Prod.mk.injEq] at h
        exact ⟨h.1.symm, by rw [← h.2]⟩
      | false =>
        rw [rotation_phase_of_rotate env s n hl hc hre] at h
        simp at h
    · rw [rotation_phase_of_lt env s n hl (Nat.not_le.mp hc)] at h
      simp at h
  | none =>
    have hn := n_uses_of_lookup_none s hl
    by_cases hc : s.max_n_uses ≤ 0 <;> cases hre : env.renewErr <;>
      simp [rotation_phase, hn, hc, refresh_ip, hre] at h
    exact ⟨h.1.symm, by rw [← h.2]⟩

theorem fetch_phase_err_frame (env : Env) (s st : ScraperState) (e : ScrapeErr)
    (w : Option ℚ) (h : fetch_phase env s = .error (e, st, w)) :
    st.bad_response_urls = s.bad_response_urls := by
  cases hf : env.fetchErr with
  | true =>
    rw [fetch_phase_of_fetch_err env s hf] at h
    simp only [Except.error.injEq, Prod.mk.injEq] at h
    rw [← h.2.1]
  | false =>
    cases hu : incKey s.ips_used s.current_ip 1 with
    | none =>
      simp [fetch_phase, hf, set_last_scrape_time, update_ip_dict, hu] at h
      rw [← h.2.1]
    | some d =>
      simp [fetch_phase, hf, set_last_scrape_time, update_ip_dict, hu] at h

theorem fetch_phase_ok_frame (env : Env) (s st : ScraperState) (r : Response)
    (w : ℚ) (h : fetch_phase env s = .ok (r, st, w)) :
    st.bad_response_urls = s.bad_response_urls := by
  cases hf : env.fetchErr with
  | true =>
    rw [fetch_phase_of_fetch_err env s hf] at h
    simp at h
  | false =>
    cases hu : incKey s.ips_used s.current_ip 1 with
    | none =>
      simp [fetch_phase, hf, set_last_scrape_time, update_ip_dict, hu] at h
    | some d =>
      simp [fetch_phase, hf, set_last_scrape_time, update_ip_dict, hu] at h
      rw [← h.2.1]

theorem scrape_fetch_err_reports (env : Env) (url fname : String) (s : ScraperState)
    (e : ScrapeErr) (h : (scrape_fetch env url fname s).err = some e) :
    (scrape_fetch env url fname s).reported = some s.bad_response_urls ∧
    (scrape_fetch env url fname s).state.bad_response_urls = s.bad_response_urls := by
  cases hrot : rotation_phase env s with
  | error es =>
    obtain ⟨e', st⟩ := es
    obtain ⟨he', hbad⟩ := rotation_phase_err_frame env s st e' hrot
    rw [scrape_fetch_of_error (get_page_of_rotation_err hrot)]
    exact ⟨by rw [hbad], hbad⟩
  | ok s1 =>
    obtain ⟨hmax, hmin, hrand, hig, hlast, hcache, hbad1⟩ :=
      rotation_phase_frame env s s1 hrot
    have hgp := get_page_of_rotation_ok hrot
    cases hfp : fetch_phase env s1 with
    | error est =>
      obtain ⟨e', st, w⟩ := est
      have hbad := fetch_phase_err_frame env s1 st e' w hfp
      rw [scrape_fetch_of_error (hgp.trans hfp)]
      refine ⟨by rw [hbad, hbad1], by rw [hbad, hbad1]⟩
    | ok rsw =>
      obtain ⟨r, st, w⟩ := rsw
      have hstbad := fetch_phase_ok_frame env s1 st r w hfp
      by_cases hsc : r.status_code / 100 = 2
      · cases hse : env.storeErr with
        | true =>
          rw [scrape_fetch_of_ok_store_err (hgp.trans hfp) hsc hse]
          refine ⟨by rw [hstbad, hbad1], by rw [hstbad, hbad1]⟩
        | false =>
          rw [scrape_fetch_of_ok_success (hgp.trans hfp) hsc hse] at h
          simp at h
      · rw [scrape_fetch_of_ok_bad (hgp.trans hfp) hsc] at h
        simp at h

/-- **C9.** Whenever an error escapes a `scrape` call (cache
unavailable, identity-renewal failure, fatal transport error, cache
write failure), the `except` clause first prints (surfaces) the
accumulated bad-response set — exactly the set as it was when the call
began — and the same error then propagates; the bad-response set itself
is not modified by the failing call. -/
theorem scrape_error_reports_bad_set (env : Env) (url : String) (s : ScraperState)
    (e : ScrapeErr) (h : (scrape env url s).err = some e) :
    (scrape env url s).reported = some s.bad_response_urls ∧
    (scrape env url s).state.bad_response_urls = s.bad_response_urls := by
  cases hic : s.ignore_cache with
  | true =>
    unfold scrape at h ⊢
    rw [hic] at h ⊢
    simp only [if_true] at h ⊢
    exact scrape_fetch_err_reports env url _ s e h
  | false =>
    cases hex : env.existsErr with
    | true =>
      unfold scrape
      rw [hic, hex]
      simp
    | false =>
      cases hhit : check_response_exists s.cache (get_file_name url) with
      | true =>
        simp [scrape, hic, hex, hhit] at h
      | false =>
        rw [scrape_of_miss env url s hic hex hhit] at h ⊢
        exact scrape_fetch_err_reports env url _ s e h

/-- Witness for C9: a failing cache existence check propagates after
reporting the (empty) bad-response set, leaving it unchanged. -/
theorem scrape_error_reports_bad_set_witness :
    (scrape storageErrEnv "http://b.com/q" sampleState).reported =
      some sampleState.bad_response_urls ∧
    (scrape storageErrEnv "http://b.com/q" sampleState).state.bad_response_urls =
      sampleState.bad_response_urls :=
  scrape_error_reports_bad_set storageErrEnv "http://b.com/q" sampleState
    ScrapeErr.storageUnavailable (by decide)

/-! ## C7: per-fetch bookkeeping -/

/-- **C7 counterexample.** With the usage threshold reached, rotation
precedes the fetch; if the fetch then raises a hard transport error the
error propagates without `record_use`/`set_last_scrape_time`, but the
usage ledger *has* been modified: the rotation already created the
fresh zero-valued entry for "10.0.0.2". -/
theorem transport_error_after_rotation_modifies_ledger :
    (scrape transportErrEnv "http://b.com/q" thresholdState).err =
      some ScrapeErr.transport ∧
    (scrape transportErrEnv "http://b.com/q" thresholdState).state.ips_used ≠
      thresholdState.ips_used ∧
    (scrape transportErrEnv "http://b.com/q" thresholdState).state.ips_used =
      [("10.0.0.1", 5), ("10.0.0.2", 0)] := by
  refine ⟨by decide, by decide, by decide⟩

/-- **C7 (amended).** On every cache miss whose rotation check succeeds,
let `s1` be the state immediately before the network fetch. If the
fetch completes — with any status code — `record_use(1)` and the
timestamp update each take effect exactly once after the response: the
fetching identity's ledger count is exactly one more than in `s1` and
`last_scrape_time` becomes the post-fetch clock reading. If the fetch
raises a hard transport error, the error propagates as fatal, no fetch
completes, the timestamp keeps its pre-call value, and the ledger stays
exactly `s1.ips_used`: unchanged by the fetch itself, though a rotation
performed before the failed fetch may already have added a fresh
zero-valued entry (see the counterexample). -/
theorem scrape_fetch_bookkeeping (env : Env) (url : String) (s s1 : ScraperState)
    (hic : s.ignore_cache = false) (hex : env.existsErr = false)
    (hmiss : check_response_exists s.cache (get_file_name url) = false)
    (hrot : rotation_phase env s = .ok s1) :
    (env.fetchErr = false →
      (scrape env url s).fetches = 1 ∧
      (scrape env url s).state.last_scrape_time = env.timeAfterFetch ∧
      ∀ n, lookupKey s1.ips_used s1.current_ip = some n →
        lookupKey (scrape env url s).state.ips_used s1.current_ip = some (n + 1)) ∧
    (env.fetchErr = true →
      (scrape env url s).err = some ScrapeErr.transport ∧
      (scrape env url s).fetches = 0 ∧
      (scrape env url s).state.last_scrape_time = s.last_scrape_time ∧
      (scrape env url s).state.ips_used = s1.ips_used) := by
  rw [scrape_of_miss env url s hic hex hmiss]
  obtain ⟨hmax, hmin, hrand, hig, hlast, hcache, hbad1⟩ :=
    rotation_phase_frame env s s1 hrot
  have hgp := get_page_of_rotation_ok hrot
  constructor
  · intro hfe
    obtain ⟨m, hm⟩ := rotation_phase_ok_lookup env s s1 hrot
    obtain ⟨d, hd, hfp⟩ := fetch_phase_ok env s1 m hfe hm
    have hgp2 := hgp.trans hfp
    have hinc : ∀ n, lookupKey s1.ips_used s1.current_ip = some n →
        lookupKey d s1.current_ip = some (n + 1) := fun n hn =>
      lookupKey_incKey_self s1.ips_used d s1.current_ip 1 n hd hn
    by_cases hsc : env.response.status_code / 100 = 2
    · cases hse : env.storeErr with
      | true =>
        rw [scrape_fetch_of_ok_store_err hgp2 hsc hse]
        exact ⟨rfl, rfl, hinc⟩
      | false =>
        rw [scrape_fetch_of_ok_success hgp2 hsc hse]
        exact ⟨rfl, rfl, hinc⟩
    · rw [scrape_fetch_of_ok_bad hgp2 hsc]
      exact ⟨rfl, rfl, hinc⟩
  · intro hfe
    rw [scrape_fetch_of_error (hgp.trans (fetch_phase_of_fetch_err env s1 hfe))]
    exact ⟨rfl, rfl, hlast, rfl⟩

/-- Witness for the amended C7: below the threshold no rotation occurs,
the fetch completes, and the current identity's count goes from 2 to 3. -/
theorem scrape_fetch_bookkeeping_witness :
    lookupKey (scrape sampleEnv "http://b.com/q" sampleState).state.ips_used
      sampleState.current_ip = some (2 + 1) :=
  ((scrape_fetch_bookkeeping sampleEnv "http://b.com/q" sampleState sampleState
    rfl rfl (by decide)
    (rotation_phase_of_lt sampleEnv sampleState 2 (by decide) (by decide))).1
    rfl).2.2 2 (by decide)

/-! ## C3: usage-ledger invariant -/

theorem scrape_fetch_state_of_error {env : Env} {url fname : String}
    {s st : ScraperState} {e : ScrapeErr} {w : Option ℚ}
    (h : get_page_from_internet env s = .error (e, st, w)) :
    (scrape_fetch env url fname s).state = st := by
  rw [scrape_fetch_of_error h]

theorem scrape_fetch_ips_of_ok {env : Env} {url fname : String}
    {s st : ScraperState} {r : Response} {w : ℚ}
    (h : get_page_from_internet env s = .ok (r, st, w)) :
    (scrape_fetch env url fname s).state.ips_used = st.ips_used := by
  by_cases hsc : r.status_code / 100 = 2
  · cases hse : env.storeErr with
    | true => rw [scrape_fetch_of_ok_store_err h hsc hse]
    | false => rw [scrape_fetch_of_ok_success h hsc hse]
  · rw [scrape_fetch_of_ok_bad h hsc]

/-- Ledger invariant along the cache-miss fetch tail, assuming the
rotation target (if consulted) has no ledger entry yet. -/
theorem scrape_fetch_ledger_invariant (env : Env) (url fname : String)
    (s : ScraperState) (hfresh : lookupKey s.ips_used env.newIp = none) :
    (∀ ip, ip ≠ s.current_ip → ip ≠ env.newIp →
      lookupKey (scrape_fetch env url fname s).state.ips_used ip =
        lookupKey s.ips_used ip) ∧
    (∀ n m, lookupKey s.ips_used s.current_ip = some n →
      lookupKey (scrape_fetch env url fname s).state.ips_used s.current_ip = some m →
      n ≤ m) := by
  cases hl : lookupKey s.ips_used s.current_ip with
  | some n0 =>
    have hcn : s.current_ip ≠ env.newIp := by
      intro hh
      rw [hh, hfresh] at hl
      cases hl
    by_cases hc : s.max_n_uses ≤ n0
    · cases hre : env.renewErr with
      | true =>
        have hrot := rotation_phase_of_renew_err env s n0 hl hc hre
        have hst : (scrape_fetch env url fname s).state = s :=
          scrape_fetch_state_of_error (get_page_of_rotation_err hrot)
        rw [hst]
        refine ⟨fun ip _ _ => rfl, fun n m hn hm => ?_⟩
        rw [hl] at hm
        have h1 := Option.some.inj hn
        have h2 := Option.some.inj hm
        omega
      | false =>
        have hrot := rotation_phase_of_rotate env s n0 hl hc hre
        cases hfe : env.fetchErr with
        | true =>
          have hst : (scrape_fetch env url fname s).state =
              update_current_ip env.newIp s :=
            scrape_fetch_state_of_error
              ((get_page_of_rotation_ok hrot).trans
                (fetch_phase_of_fetch_err env _ hfe))
          rw [hst]
          constructor
          · intro ip _ hipn
            simp only [update_current_ip]
            exact lookupKey_setKey_ne s.ips_used env.newIp ip 0 hipn
          · intro n m hn hm
            simp only [update_current_ip] at hm
            rw [lookupKey_setKey_ne s.ips_used env.newIp s.current_ip 0 hcn, hl] at hm
            have h1 := Option.some.inj hn
            have h2 := Option.some.inj hm
            omega
        | false =>
          have hm0 : lookupKey (update_current_ip env.newIp s).ips_used
              (update_current_ip env.newIp s).current_ip = some 0 := by
            simp only [update_current_ip]
            exact lookupKey_setKey_self s.ips_used env.newIp 0
          obtain ⟨d, hd, hfp⟩ :=
            fetch_phase_ok env (update_current_ip env.newIp s) 0 hfe hm0
          have hips : (scrape_fetch env url fname s).state.ips_used = d :=
            scrape_fetch_ips_of_ok ((get_page_of_rotation_ok hrot).trans hfp)
          rw [hips]
          have hdd : incKey (setKey s.ips_used env.newIp 0) env.newIp 1 = some d := hd
          constructor
          · intro ip _ hipn
            rw [lookupKey_incKey_ne _ d env.newIp ip 1 hdd hipn]
            exact lookupKey_setKey_ne s.ips_used env.newIp ip 0 hipn
          · intro n m hn hm
            rw [lookupKey_incKey_ne _ d env.newIp s.current_ip 1 hdd hcn,
              lookupKey_setKey_ne s.ips_used env.newIp s.current_ip 0 hcn, hl] at hm
            have h1 := Option.some.inj hn
            have h2 := Option.some.inj hm
            omega
    · have hrot := rotation_phase_of_lt env s n0 hl (Nat.not_le.mp hc)
      cases hfe : env.fetchErr with
      | true =>
        have hst : (scrape_fetch env url fname s).state = s :=
          scrape_fetch_state_of_error
            ((get_page_of_rotation_ok hrot).trans
              (fetch_phase_of_fetch_err env s hfe))
        rw [hst]
        refine ⟨fun ip _ _ => rfl, fun n m hn hm => ?_⟩
        rw [hl] at hm
        have h1 := Option.some.inj hn
        have h2 := Option.some.inj hm
        omega
      | false =>
        obtain ⟨d, hd, hfp⟩ := fetch_phase_ok env s n0 hfe hl
        have hips : (scrape_fetch env url fname s).state.ips_used = d :=
          scrape_fetch_ips_of_ok ((get_page_of_rotation_ok hrot).trans hfp)
        rw [hips]
        constructor
        · intro ip hip _
          exact lookupKey_incKey_ne s.ips_used d s.current_ip ip 1 hd hip
        · intro n m hn hm
          rw [lookupKey_incKey_self s.ips_used d s.current_ip 1 n0 hd hl] at hm
          have hm1 := Option.some.inj hm
          have hn1 := Option.some.inj hn
          omega
  | none =>
    refine ⟨?_, fun n m hn _ => ?_⟩
    case refine_2 => cases hn
    intro ip hip hipn
    have hz : lookupKey (setKey s.ips_used s.current_ip 0) ip =
        lookupKey s.ips_used ip :=
      lookupKey_setKey_ne s.ips_used s.current_ip ip 0 hip
    have hn0 := n_uses_of_lookup_none s hl
    by_cases hc : s.max_n_uses ≤ 0
    · cases hre : env.renewErr with
      | true =>
        have hrot : rotation_phase env s = .error (.identityRenewal,
            { s with ips_used := setKey s.ips_used s.current_ip 0 }) := by
          simp [rotation_phase, hn0, hc, refresh_ip, hre]
        have hst : (scrape_fetch env url fname s).state =
            { s with ips_used := setKey s.ips_used s.current_ip 0 } :=
          scrape_fetch_state_of_error (get_page_of_rotation_err hrot)
        rw [hst]
        exact hz
      | false =>
        have hrot : rotation_phase env s = .ok (update_current_ip env.newIp
            { s with ips_used := setKey s.ips_used s.current_ip 0 }) := by
          simp [rotation_phase, hn0, hc, refresh_ip, hre]
        cases hfe : env.fetchErr with
        | true =>
          have hst : (scrape_fetch env url fname s).state =
              update_current_ip env.newIp
                { s with ips_used := setKey s.ips_used s.current_ip 0 } :=
            scrape_fetch_state_of_error
              ((get_page_of_rotation_ok hrot).trans
                (fetch_phase_of_fetch_err env _ hfe))
          rw [hst]
          simp only [update_current_ip]
          rw [lookupKey_setKey_ne (setKey s.ips_used s.current_ip 0)
            env.newIp ip 0 hipn]
          exact hz
        | false =>
          have hm0 : lookupKey (update_current_ip env.newIp
              { s with ips_used := setKey s.ips_used s.current_ip 0 }).ips_used
              (update_current_ip env.newIp
              { s with ips_used := setKey s.ips_used s.current_ip 0 }).current_ip =
              some 0 := by
            simp only [update_current_ip]
            exact lookupKey_setKey_self _ env.newIp 0
          obtain ⟨d, hd, hfp⟩ := fetch_phase_ok env _ 0 hfe hm0
          have hips : (scrape_fetch env url fname s).state.ips_used = d :=
            scrape_fetch_ips_of_ok ((get_page_of_rotation_ok hrot).trans hfp)
          rw [hips]
          have hdd : incKey (setKey (setKey s.ips_used s.current_ip 0) env.newIp 0)
              env.newIp 1 = some d := hd
          rw [lookupKey_incKey_ne _ d env.newIp ip 1 hdd hipn,
            lookupKey_setKey_ne (setKey s.ips_used s.current_ip 0)
              env.newIp ip 0 hipn]
          exact hz
    · have hrot : rotation_phase env s = .ok
          { s with ips_used := setKey s.ips_used s.current_ip 0 } := by
        simp [rotation_phase, hn0, hc]
      cases hfe : env.fetchErr with
      | true =>
        have hst : (scrape_fetch env url fname s).state =
            { s with ips_used := setKey s.ips_used s.current_ip 0 } :=
          scrape_fetch_state_of_error
            ((get_page_of_rotation_ok hrot).trans
              (fetch_phase_of_fetch_err env _ hfe))
        rw [hst]
        exact hz
      | false =>
        have hm0 : lookupKey
            ({ s with ips_used := setKey s.ips_used s.current_ip 0 } :
              ScraperState).ips_used
            ({ s with ips_used := setKey s.ips_used s.current_ip 0 } :
              ScraperState).current_ip = some 0 :=
          lookupKey_setKey_self s.ips_used s.current_ip 0
        obtain ⟨d, hd, hfp⟩ := fetch_phase_ok env _ 0 hfe hm0
        have hips : (scrape_fetch env url fname s).state.ips_used = d :=
          scrape_fetch_ips_of_ok ((get_page_of_rotation_ok hrot).trans hfp)
        rw [hips]
        have hdd : incKey (setKey s.ips_used s.current_ip 0) s.current_ip 1 =
            some d := hd
        rw [lookupKey_incKey_ne _ d s.current_ip ip 1 hdd hip]
        exact hz

/-- **C3 counterexample.** When a rotation hands back an identity string
equal to a retired one, `_update_current_ip` resets that retired entry
to 0 (`self.ips_used[self.current_ip] = 0`), and the subsequent fetch
makes it 1: the entry of retired identity "A" drops from 3 to 1, so
retired entries are not retained unchanged for the client's lifetime. -/
theorem retired_ledger_entry_reset :
    lookupKey retiredResetState.ips_used "A" = some 3 ∧
    lookupKey (scrape reuseIpEnv "http://b.com/q" retiredResetState).state.ips_used
      "A" = some 1 := by
  refine ⟨by decide, by decide⟩

/-- **C3 (amended).** Provided every identity handed back by a rotation
is fresh (it has no ledger entry yet), one `scrape` call preserves the
ledger invariant: entries of identities other than the current one and
the rotation target are unchanged, and the current identity's count
never decreases. Without that freshness proviso the claim fails: the
code resets a colliding (possibly retired) entry to 0 on rotation (see
the counterexample). New identities do start at a fresh zero entry
(theorem C2's `scrape_rotates_on_threshold` shows it reading 1 after
the one recorded use). -/
theorem scrape_ledger_invariant (env : Env) (url : String) (s : ScraperState)
    (hfresh : lookupKey s.ips_used env.newIp = none) :
    (∀ ip, ip ≠ s.current_ip → ip ≠ env.newIp →
      lookupKey (scrape env url s).state.ips_used ip = lookupKey s.ips_used ip) ∧
    (∀ n m, lookupKey s.ips_used s.current_ip = some n →
      lookupKey (scrape env url s).state.ips_used s.current_ip = some m →
      n ≤ m) := by
  cases hic : s.ignore_cache with
  | true =>
    have hscr : scrape env url s = scrape_fetch env url (get_file_name url) s := by
      simp [scrape, hic]
    rw [hscr]
    exact scrape_fetch_ledger_invariant env url _ s hfresh
  | false =>
    cases hex : env.existsErr with
    | true =>
      have hscr : (scrape env url s).state = s := by
        simp [scrape, hic, hex]
      rw [hscr]
      refine ⟨fun ip _ _ => rfl, fun n m hn hm => ?_⟩
      rw [hn] at hm
      exact le_of_eq (Option.some.inj hm)
    | false =>
      cases hhit : check_response_exists s.cache (get_file_name url) with
      | true =>
        have hscr : (scrape env url s).state = s := by
          simp [scrape, hic, hex, hhit]
        rw [hscr]
        refine ⟨fun ip _ _ => rfl, fun n m hn hm => ?_⟩
        rw [hn] at hm
        exact le_of_eq (Option.some.inj hm)
      | false =>
        rw [scrape_of_miss env url s hic hex hhit]
        exact scrape_fetch_ledger_invariant env url _ s hfresh

/-- Witness for the amended C3: under a fresh rotation target, a scrape
leaves the entry of an uninvolved identity unchanged. -/
theorem scrape_ledger_invariant_witness :
    lookupKey (scrape sampleEnv "http://b.com/q" sampleState).state.ips_used
      "8.8.8.8" = lookupKey sampleState.ips_used "8.8.8.8" :=
  (scrape_ledger_invariant sampleEnv "http://b.com/q" sampleState (by decide)).1
    "8.8.8.8" (by decide) (by decide)
